import Mathlib

/-!
Shallow embedding of `wayland_display.c` from yalue/wayland_c_example.

Byte buffers are `List Nat`, one entry per byte.  Multi-byte stores and
loads are little-endian, matching the raw `uint32_t` stores of the source
on the x86 targets it is built for.  A call to `exit(1)` inside a function
is modeled by an `Option` result, `none` standing for immediate process
termination with status 1.  Fixed-width machine arithmetic is modeled on
`Nat` with explicit `% 2^w` where the source can overflow.
-/

namespace Wayland

/-- Surface lifecycle states, from the `SurfaceState` enum of the source. -/
inductive SurfaceState where
  | NONE
  | ACKED_CONFIGURE
  | SURFACE_ATTACHED
  deriving DecidableEq

/-- `#define WAYLAND_DISPLAY_OBJECT_ID (1)` -/
def WAYLAND_DISPLAY_OBJECT_ID : Nat := 1

/-- `#define WAYLAND_REGISTRY_BIND_OPCODE (0)` -/
def WAYLAND_REGISTRY_BIND_OPCODE : Nat := 0

/-- `#define WAYLAND_REGISTRY_GLOBAL_EVENT (0)` -/
def WAYLAND_REGISTRY_GLOBAL_EVENT : Nat := 0

/-- `#define WAYLAND_DISPLAY_ERROR_EVENT (0)` -/
def WAYLAND_DISPLAY_ERROR_EVENT : Nat := 0

/-- `#define WAYLAND_SHM_FORMAT_EVENT (0)` -/
def WAYLAND_SHM_FORMAT_EVENT : Nat := 0

/-- `#define XDG_WM_PING_EVENT (0)` -/
def XDG_WM_PING_EVENT : Nat := 0

/-- `#define XDG_SURFACE_CONFIGURE_EVENT (0)` -/
def XDG_SURFACE_CONFIGURE_EVENT : Nat := 0

/-- `#define XDG_TOPLEVEL_CONFIGURE_EVENT (0)` -/
def XDG_TOPLEVEL_CONFIGURE_EVENT : Nat := 0

/-- Rounds `v` up to the next multiple of 4: the `while (v & 3) v++;` loop of
the source's `RoundUp4`. -/
def RoundUp4 (v : Nat) : Nat :=
  if v % 4 = 0 then v else RoundUp4 (v + 1)
termination_by (4 - v % 4) % 4
decreasing_by omega

/-- The four bytes a 32-bit little-endian store of `v` places in memory
(the `*((uint32_t *) (buffer + offset)) = v` write of `AppendUint32`). -/
def uint32Bytes (v : Nat) : List Nat :=
  [v % 256, v / 256 % 256, v / 65536 % 256, v / 16777216 % 256]

/-- A 32-bit little-endian load at `off` (the read of `ReadUint32`).  Bytes
outside the list read as 0, standing for memory beyond the modeled buffer. -/
def uint32At (buffer : List Nat) (off : Nat) : Nat :=
  buffer.getD off 0 + buffer.getD (off + 1) 0 * 256 +
    buffer.getD (off + 2) 0 * 65536 + buffer.getD (off + 3) 0 * 16777216

/-- `AppendUint32`: appends the 4 little-endian bytes of `v` at the current
offset.  All writes of the source are sequential appends into a fresh buffer,
so the buffer's length plays the role of `*current_offset`. -/
def AppendUint32 (buffer : List Nat) (v : Nat) : List Nat :=
  buffer ++ uint32Bytes v

/-- `ReadUint32`: returns the loaded value and the advanced offset. -/
def ReadUint32 (buffer : List Nat) (current_offset : Nat) : Nat × Nat :=
  (uint32At buffer current_offset, current_offset + 4)

/-- `AppendWaylandString`: appends `strlen(str) + 1` as a 32-bit length, the
string bytes, and the terminator plus zero padding up to a 4-byte boundary.
Returns `none` (the source prints and returns 0) if the string would exceed
the buffer's capacity. -/
def AppendWaylandString (buffer : List Nat) (buffer_capacity : Nat)
    (str : List Nat) : Option (List Nat) :=
  let length := str.length
  let padded_length := RoundUp4 (length + 1)
  let padding_length := padded_length - length
  let remaining := buffer_capacity - buffer.length
  if padded_length + 4 > remaining then none
  else some (AppendUint32 buffer (length + 1) ++ str ++
    List.replicate padding_length 0)

/-- `ReadWaylandString`: reads the 4-byte length; length 0 yields the empty
string with the offset advanced only past the length field.  Otherwise the
returned string is the buffer bytes up to the first 0 byte (the value a
`char*` into the buffer denotes), and the offset advances by the padded
declared length. -/
def ReadWaylandString (buffer : List Nat) (current_offset : Nat) :
    List Nat × Nat :=
  let string_length := uint32At buffer current_offset
  let off := current_offset + 4
  if string_length = 0 then ([], off)
  else (List.takeWhile (fun b => b ≠ 0) (buffer.drop off),
    off + RoundUp4 string_length)

/-- The `ParsedWaylandEvent` struct.  `payload = none` models a NULL payload
pointer (the source sets it to NULL exactly when `payload_size` is 0). -/
structure ParsedWaylandEvent where
  object_id : Nat
  opcode : Nat
  payload_size : Nat
  payload : Option (List Nat)
  deriving DecidableEq

/-- `WriteWaylandMessage`: object id, then `(payload_size + 8) << 16 | opcode`
(32-bit wrap made explicit), then `payload_size` payload bytes.  The source
advances the offset by `RoundUp4(payload_size)` without writing the padding
bytes, so their (indeterminate) content is passed in as `padding`. -/
def WriteWaylandMessage (src : ParsedWaylandEvent) (padding : List Nat) :
    List Nat :=
  let opcode_and_size :=
    (src.payload_size % 65536 + 8) * 65536 % 4294967296 + src.opcode % 65536
  AppendUint32 (AppendUint32 [] src.object_id) opcode_and_size ++
    (if src.payload_size % 65536 > 0 then
      (src.payload.getD []).take (src.payload_size % 65536) ++ padding
    else [])

/-- `ReadWaylandEvent`: parses one event at `current_offset`.  A declared
total size below the 8-byte header minimum makes the source print and call
`exit(1)`, modeled as `none`.  The payload is a view of `payload_size` bytes
of the buffer starting right after the header, NULL (`none`) when empty. -/
def ReadWaylandEvent (buffer : List Nat) (current_offset : Nat) :
    Option (ParsedWaylandEvent × Nat) :=
  let r1 := ReadUint32 buffer current_offset
  let r2 := ReadUint32 buffer r1.2
  let opcode := r2.1 % 65536
  let size_with_header := r2.1 / 65536
  if size_with_header < 8 then none
  else
    let payload_size := size_with_header - 8
    let payload : Option (List Nat) :=
      if payload_size = 0 then none
      else some ((buffer.drop r2.2).take payload_size)
    some (⟨r1.1, opcode, payload_size, payload⟩, r2.2 + RoundUp4 payload_size)

/-- `NextWaylandID`, with the static counter passed explicitly: increments it
and returns the new value paired with the new counter.  Exceeding the client
ceiling `0xfeffffff` makes the source print and `exit(1)`, modeled as
`none`. -/
def NextWaylandID (next_id : Nat) : Option (Nat × Nat) :=
  let n := next_id + 1
  if n > 0xfeffffff then none else some (n, n)

/-- The counter value after `k` successful calls to `NextWaylandID`, starting
from the initial value 1 of the static counter.  Since `NextWaylandID`
returns its updated counter, this is also the identifier returned by the
`k`-th call (for `k ≥ 1`). -/
def NextWaylandIDRun : Nat → Option Nat
  | 0 => some 1
  | k + 1 =>
    match NextWaylandIDRun k with
    | none => none
    | some c =>
      match NextWaylandID c with
      | none => none
      | some p => some p.2

/-- The fields of the `ApplicationState` struct that the protocol engine
reads or writes, plus the allocator counter (a static in the source) and a
running count of socket sends (used to consult the send-outcome oracle).
The file descriptors and the mapped pixel memory carry no protocol state
and are omitted. -/
structure ApplicationState where
  registry_id : Nat
  shm_id : Nat
  shm_pool_id : Nat
  frame_buffer_id : Nat
  compositor_id : Nat
  xdg_wm_base_id : Nat
  surface_id : Nat
  xdg_surface_id : Nat
  xdg_toplevel_id : Nat
  binding_done : Nat
  surface_state : SurfaceState
  width : Nat
  height : Nat
  stride : Nat
  image_buffer_size : Nat
  next_id : Nat
  send_count : Nat
  deriving DecidableEq

/-- Observable effects of a step: bytes sent on the socket (plainly or with
the shm descriptor as ancillary data) and the diagnostics the source prints
that the claims refer to. -/
inductive Output where
  | sent (bytes : List Nat)
  | sentFd (bytes : List Nat)
  | logShortError (payload_size : Nat)
  | logErrorEvent (object_id error_code : Nat) (msg : List Nat)
  | logInterface (interface_name : List Nat) (name version : Nat)
  | logBadPayloadSize (payload_size : Nat)
  | logFormat (format : Nat)
  | logShortToplevel (payload_size : Nat)
  | logToplevelConfigure (w h : Option Nat)
  | logUnsupported (opcode object_id : Nat)
  | logHandleFailed (opcode object_id : Nat)
  | logOverflow (payload_size buffer_size : Nat)
  deriving DecidableEq

/-- Outcome oracle for the socket: `sendOk n` tells whether the `n`-th send
of the run transfers all its bytes (the source treats a short or failed
`send`/`sendmsg` as an error). -/
abbrev SendOracle := Nat → Bool

/-- One `send` call: consults the oracle at the current send count and
advances the count.  Returns whether the send succeeded. -/
def doSend (sendOk : SendOracle) (s : ApplicationState) (bytes : List Nat) :
    Bool × ApplicationState × List Output :=
  (sendOk s.send_count, {s with send_count := s.send_count + 1},
    if sendOk s.send_count then [Output.sent bytes] else [])

/-- One `sendmsg` call of `SendMsgWithShmDescriptor`, carrying the shm file
descriptor as ancillary data. -/
def doSendFd (sendOk : SendOracle) (s : ApplicationState) (bytes : List Nat) :
    Bool × ApplicationState × List Output :=
  (sendOk s.send_count, {s with send_count := s.send_count + 1},
    if sendOk s.send_count then [Output.sentFd bytes] else [])

/-- The bytes of `"wl_shm"`. -/
def str_wl_shm : List Nat := [119, 108, 95, 115, 104, 109]

/-- The bytes of `"xdg_wm_base"`. -/
def str_xdg_wm_base : List Nat :=
  [120, 100, 103, 95, 119, 109, 95, 98, 97, 115, 101]

/-- The bytes of `"wl_compositor"`. -/
def str_wl_compositor : List Nat :=
  [119, 108, 95, 99, 111, 109, 112, 111, 115, 105, 116, 111, 114]

/-- `WaylandRegistryBind`: allocates an id, builds the bind payload
`[name, interface string, version, new id]` in a 248-byte staging buffer and
sends it against the registry object.  Returns the new id, or 0 when the
string copy or the send fails (matching the source's 0 return). -/
def WaylandRegistryBind (sendOk : SendOracle) (s : ApplicationState)
    (name : Nat) (interface_name : List Nat) (version : Nat) :
    Option (Nat × ApplicationState × List Output) :=
  match NextWaylandID s.next_id with
  | none => none
  | some p =>
    let new_id := p.1
    let s := {s with next_id := p.2}
    match AppendWaylandString (AppendUint32 [] name) 248 interface_name with
    | none => some (0, s, [])
    | some payload =>
      let payload := AppendUint32 (AppendUint32 payload version) new_id
      let msg : ParsedWaylandEvent :=
        ⟨s.registry_id, WAYLAND_REGISTRY_BIND_OPCODE,
          payload.length % 65536, some payload⟩
      let d := doSend sendOk s (WriteWaylandMessage msg [])
      if d.1 then some (new_id, d.2.1, d.2.2) else some (0, d.2.1, d.2.2)

/-- `BindingDone`: returns 1 once the cached flag is set, sets and caches it
when the three required globals are all bound, otherwise returns 0. -/
def BindingDone (s : ApplicationState) : Nat × ApplicationState :=
  if s.binding_done ≠ 0 then (1, s)
  else if s.shm_id ≠ 0 ∧ s.compositor_id ≠ 0 ∧ s.xdg_wm_base_id ≠ 0 then
    (1, {s with binding_done := 1})
  else (0, s)

/-- `PrintErrorEventInfo`: diagnostics printed for a display error event. -/
def PrintErrorEventInfo (e : ParsedWaylandEvent) : List Output :=
  if e.payload_size ≤ 12 then [Output.logShortError e.payload_size]
  else
    let pb := e.payload.getD []
    [Output.logErrorEvent (uint32At pb 0) (uint32At pb 4)
      (ReadWaylandString pb 8).1]

/-- `SendXDGPong`: sends opcode 3 to the `xdg_wm_base` object echoing the
ping serial. -/
def SendXDGPong (sendOk : SendOracle) (s : ApplicationState)
    (ping_serial : Nat) : Nat × ApplicationState × List Output :=
  let msg : ParsedWaylandEvent :=
    ⟨s.xdg_wm_base_id, 3, 4, some (AppendUint32 [] ping_serial)⟩
  let d := doSend sendOk s (WriteWaylandMessage msg [])
  if d.1 then (1, d.2.1, d.2.2) else (0, d.2.1, d.2.2)

/-- `AckXDGSurfaceConfigure`: sends opcode 4 to the `xdg_surface` object
echoing the configure serial. -/
def AckXDGSurfaceConfigure (sendOk : SendOracle) (s : ApplicationState)
    (serial : Nat) : Nat × ApplicationState × List Output :=
  let msg : ParsedWaylandEvent :=
    ⟨s.xdg_surface_id, 4, 4, some (AppendUint32 [] serial)⟩
  let d := doSend sendOk s (WriteWaylandMessage msg [])
  if d.1 then (1, d.2.1, d.2.2) else (0, d.2.1, d.2.2)

/-- The dereference `*((uint32_t *) (payload + off))` performed on an event
payload: `none` when the pointer is NULL (empty payload) or the 4 bytes are
not all inside the payload view — reads the source performs anyway, with
undefined or out-of-payload results. -/
def payloadRead32 : Option (List Nat) → Nat → Option Nat
  | none, _ => none
  | some bs, off => if off + 4 ≤ bs.length then some (uint32At bs off) else none

/-- Third bind stage of the registry-global branch of `HandleWaylandEvent`:
the `wl_compositor` comparison and bind. -/
def registryStageComp (sendOk : SendOracle) (s : ApplicationState)
    (name : Nat) (interface_name : List Nat) (interface_version : Nat)
    (acc : List Output) : Option (Nat × ApplicationState × List Output) :=
  if interface_name = str_wl_compositor then
    match WaylandRegistryBind sendOk s name interface_name interface_version
      with
    | none => none
    | some r =>
      let s1 := {r.2.1 with compositor_id := r.1}
      if r.1 = 0 then some (0, s1, acc ++ r.2.2)
      else some (1, s1, acc ++ r.2.2)
  else some (1, s, acc)

/-- Second bind stage of the registry-global branch of `HandleWaylandEvent`:
the `xdg_wm_base` comparison and bind, then the compositor stage. -/
def registryStageWm (sendOk : SendOracle) (s : ApplicationState)
    (name : Nat) (interface_name : List Nat) (interface_version : Nat)
    (acc : List Output) : Option (Nat × ApplicationState × List Output) :=
  if interface_name = str_xdg_wm_base then
    match WaylandRegistryBind sendOk s name interface_name interface_version
      with
    | none => none
    | some r =>
      let s1 := {r.2.1 with xdg_wm_base_id := r.1}
      if r.1 = 0 then some (0, s1, acc ++ r.2.2)
      else registryStageComp sendOk s1 name interface_name interface_version
        (acc ++ r.2.2)
  else registryStageComp sendOk s name interface_name interface_version acc

/-- The registry-global branch of `HandleWaylandEvent`: parses
`[name, interface string, version]` from the payload and tries in order the
`wl_shm`, `xdg_wm_base` and `wl_compositor` binds, aborting with result 0 as
soon as one bind returns 0 (with the 0 already assigned to the role's id
field, as in the source). -/
def handleRegistryGlobal (sendOk : SendOracle) (s : ApplicationState)
    (e : ParsedWaylandEvent) : Option (Nat × ApplicationState × List Output) :=
  let pb := e.payload.getD []
  let name := (ReadUint32 pb 0).1
  let rs := ReadWaylandString pb 4
  let interface_name := rs.1
  let interface_version := (ReadUint32 pb rs.2).1
  let acc := [Output.logInterface interface_name name interface_version]
  if interface_name = str_wl_shm then
    match WaylandRegistryBind sendOk s name interface_name interface_version
      with
    | none => none
    | some r =>
      let s1 := {r.2.1 with shm_id := r.1}
      if r.1 = 0 then some (0, s1, acc ++ r.2.2)
      else registryStageWm sendOk s1 name interface_name interface_version
        (acc ++ r.2.2)
  else registryStageWm sendOk s name interface_name interface_version acc

/-- `HandleWaylandEvent`: routes one parsed event by `(object_id, opcode)`
through the same chain of guarded branches as the source, ending in the
unsupported-event diagnostic with result 0. -/
def HandleWaylandEvent (sendOk : SendOracle) (s : ApplicationState)
    (e : ParsedWaylandEvent) : Option (Nat × ApplicationState × List Output) :=
  if e.object_id = s.registry_id ∧ e.opcode = WAYLAND_REGISTRY_GLOBAL_EVENT
    then handleRegistryGlobal sendOk s e
  else if e.object_id = WAYLAND_DISPLAY_OBJECT_ID ∧
      e.opcode = WAYLAND_DISPLAY_ERROR_EVENT then
    some (0, s, PrintErrorEventInfo e)
  else if e.object_id = s.xdg_wm_base_id ∧ e.opcode = XDG_WM_PING_EVENT then
    if e.payload_size ≠ 4 then some (0, s, [.logBadPayloadSize e.payload_size])
    else
      let r := SendXDGPong sendOk s (uint32At (e.payload.getD []) 0)
      some r
  else if e.object_id = s.xdg_surface_id ∧
      e.opcode = XDG_SURFACE_CONFIGURE_EVENT then
    if e.payload_size ≠ 4 then some (0, s, [.logBadPayloadSize e.payload_size])
    else
      let r := AckXDGSurfaceConfigure sendOk s (uint32At (e.payload.getD []) 0)
      if r.1 = 0 then some (0, r.2.1, r.2.2)
      else some (1, {r.2.1 with surface_state := .ACKED_CONFIGURE}, r.2.2)
  else if e.object_id = s.xdg_toplevel_id ∧
      e.opcode = XDG_TOPLEVEL_CONFIGURE_EVENT then
    some (1, s,
      (if e.payload_size < 8 then [Output.logShortToplevel e.payload_size]
        else []) ++
      [Output.logToplevelConfigure (payloadRead32 e.payload 0)
        (payloadRead32 e.payload 4)])
  else if e.object_id = s.shm_id ∧ e.opcode = WAYLAND_SHM_FORMAT_EVENT then
    if e.payload_size ≠ 4 then some (0, s, [.logBadPayloadSize e.payload_size])
    else some (1, s, [Output.logFormat (uint32At (e.payload.getD []) 0)])
  else some (0, s, [Output.logUnsupported e.opcode e.object_id])

/-- The batch-overflow guard of `ProcessWaylandEvents`:
`(buffer_offset - 1) > buffer_size`, on the already-advanced offset. -/
def batchOverflowCheck (buffer_offset buffer_size : Nat) : Bool :=
  buffer_offset - 1 > buffer_size

/-- The `while (buffer_offset < buffer_size)` loop of
`ProcessWaylandEvents`: parse one event, apply the overflow guard, dispatch,
and continue; any failure returns 0 at once, leaving the rest of the batch
unprocessed.  The accumulated outputs record what was actually dispatched. -/
def ProcessLoop (sendOk : SendOracle) (s : ApplicationState)
    (buffer : List Nat) (buffer_size buffer_offset : Nat) :
    Option (Nat × ApplicationState × List Output) :=
  if h : buffer_offset < buffer_size then
    match hre : ReadWaylandEvent buffer buffer_offset with
    | none => none
    | some (event, offset2) =>
      if batchOverflowCheck offset2 buffer_size then
        some (0, s, [Output.logOverflow event.payload_size buffer_size])
      else
        match HandleWaylandEvent sendOk s event with
        | none => none
        | some (r, s1, out1) =>
          if r = 0 then
            some (0, s1,
              out1 ++ [Output.logHandleFailed event.opcode event.object_id])
          else
            match ProcessLoop sendOk s1 buffer buffer_size offset2 with
            | none => none
            | some (r2, s2, out2) => some (r2, s2, out1 ++ out2)
  else some (1, s, [])
termination_by buffer_size - buffer_offset
decreasing_by
  have hlt : buffer_offset < offset2 := by
    simp only [ReadWaylandEvent, ReadUint32] at hre
    split at hre
    · simp at hre
    · simp only [Option.some.injEq, Prod.mk.injEq] at hre
      omega
  omega

/-- `ProcessWaylandEvents`: runs the loop from offset 0. -/
def ProcessWaylandEvents (sendOk : SendOracle) (s : ApplicationState)
    (buffer : List Nat) (buffer_size : Nat) :
    Option (Nat × ApplicationState × List Output) :=
  ProcessLoop sendOk s buffer buffer_size 0

/-- `CreateWLSurface`: allocates and records `surface_id` (before the send,
as in the source), then asks the compositor for a surface. -/
def CreateWLSurface (sendOk : SendOracle) (s : ApplicationState) :
    Option (Nat × ApplicationState × List Output) :=
  match NextWaylandID s.next_id with
  | none => none
  | some p =>
    let s := {s with next_id := p.2, surface_id := p.1}
    let msg : ParsedWaylandEvent :=
      ⟨s.compositor_id, 0, 4, some (AppendUint32 [] s.surface_id)⟩
    let d := doSend sendOk s (WriteWaylandMessage msg [])
    if d.1 then some (1, d.2.1, d.2.2) else some (0, d.2.1, d.2.2)

/-- `CreateXDGSurface`: allocates and records `xdg_surface_id`, then sends
`xdg_wm_base.get_xdg_surface` (opcode 2) with the new id and the surface
id. -/
def CreateXDGSurface (sendOk : SendOracle) (s : ApplicationState) :
    Option (Nat × ApplicationState × List Output) :=
  match NextWaylandID s.next_id with
  | none => none
  | some p =>
    let s := {s with next_id := p.2, xdg_surface_id := p.1}
    let msg : ParsedWaylandEvent :=
      ⟨s.xdg_wm_base_id, 2, 8,
        some (AppendUint32 (AppendUint32 [] s.xdg_surface_id) s.surface_id)⟩
    let d := doSend sendOk s (WriteWaylandMessage msg [])
    if d.1 then some (1, d.2.1, d.2.2) else some (0, d.2.1, d.2.2)

/-- `GetXDGTopLevel`: allocates and records `xdg_toplevel_id`, then sends
`xdg_surface.get_toplevel` (opcode 1). -/
def GetXDGTopLevel (sendOk : SendOracle) (s : ApplicationState) :
    Option (Nat × ApplicationState × List Output) :=
  match NextWaylandID s.next_id with
  | none => none
  | some p =>
    let s := {s with next_id := p.2, xdg_toplevel_id := p.1}
    let msg : ParsedWaylandEvent :=
      ⟨s.xdg_surface_id, 1, 4, some (AppendUint32 [] s.xdg_toplevel_id)⟩
    let d := doSend sendOk s (WriteWaylandMessage msg [])
    if d.1 then some (1, d.2.1, d.2.2) else some (0, d.2.1, d.2.2)

/-- `CreateSurface`: the three creation steps in order, aborting on the
first failure. -/
def CreateSurface (sendOk : SendOracle) (s : ApplicationState) :
    Option (Nat × ApplicationState × List Output) :=
  match CreateWLSurface sendOk s with
  | none => none
  | some r1 =>
    if r1.1 = 0 then some (0, r1.2.1, r1.2.2)
    else
      match CreateXDGSurface sendOk r1.2.1 with
      | none => none
      | some r2 =>
        if r2.1 = 0 then some (0, r2.2.1, r1.2.2 ++ r2.2.2)
        else
          match GetXDGTopLevel sendOk r2.2.1 with
          | none => none
          | some r3 =>
            if r3.1 = 0 then some (0, r3.2.1, r1.2.2 ++ r2.2.2 ++ r3.2.2)
            else some (1, r3.2.1, r1.2.2 ++ r2.2.2 ++ r3.2.2)

/-- `CommitSurface`: sends `wl_surface.commit` (opcode 6, empty payload). -/
def CommitSurface (sendOk : SendOracle) (s : ApplicationState) :
    Nat × ApplicationState × List Output :=
  let msg : ParsedWaylandEvent := ⟨s.surface_id, 6, 0, none⟩
  let d := doSend sendOk s (WriteWaylandMessage msg [])
  if d.1 then (1, d.2.1, d.2.2) else (0, d.2.1, d.2.2)

/-- `CreateShmPool`: allocates a pool id, sends `wl_shm.create_pool` with
the id and buffer size plus the shm descriptor as ancillary data, and
records `shm_pool_id` on success. -/
def CreateShmPool (sendOk : SendOracle) (s : ApplicationState) :
    Option (Nat × ApplicationState × List Output) :=
  match NextWaylandID s.next_id with
  | none => none
  | some p =>
    let shm_pool_id := p.1
    let s := {s with next_id := p.2}
    let msg : ParsedWaylandEvent :=
      ⟨s.shm_id, 0, 8,
        some (AppendUint32 (AppendUint32 [] shm_pool_id) s.image_buffer_size)⟩
    let d := doSendFd sendOk s (WriteWaylandMessage msg [])
    if d.1 then some (1, {d.2.1 with shm_pool_id := shm_pool_id}, d.2.2)
    else some (0, d.2.1, d.2.2)

/-- `CreateFrameBuffer`: allocates a buffer id, sends
`wl_shm_pool.create_buffer` with `[id, 0, width, height, stride, 0]`, and
records `frame_buffer_id` on success. -/
def CreateFrameBuffer (sendOk : SendOracle) (s : ApplicationState) :
    Option (Nat × ApplicationState × List Output) :=
  match NextWaylandID s.next_id with
  | none => none
  | some p =>
    let buffer_id := p.1
    let s := {s with next_id := p.2}
    let payload := AppendUint32 (AppendUint32 (AppendUint32 (AppendUint32
      (AppendUint32 (AppendUint32 [] buffer_id) 0) s.width) s.height)
      s.stride) 0
    let msg : ParsedWaylandEvent := ⟨s.shm_pool_id, 0, 24, some payload⟩
    let d := doSend sendOk s (WriteWaylandMessage msg [])
    if d.1 then some (1, {d.2.1 with frame_buffer_id := buffer_id}, d.2.2)
    else some (0, d.2.1, d.2.2)

/-- `AttachBuffer`: sends `wl_surface.attach` (opcode 1) with
`[frame_buffer_id, 0, 0]`. -/
def AttachBuffer (sendOk : SendOracle) (s : ApplicationState) :
    Nat × ApplicationState × List Output :=
  let msg : ParsedWaylandEvent :=
    ⟨s.surface_id, 1, 12,
      some (AppendUint32 (AppendUint32 (AppendUint32 [] s.frame_buffer_id) 0)
        0)⟩
  let d := doSend sendOk s (WriteWaylandMessage msg [])
  if d.1 then (1, d.2.1, d.2.2) else (0, d.2.1, d.2.2)

/-- `RenderFrame`: lazily creates the shm pool and frame buffer, fills the
pixel buffer (a write to the mapped image memory only, which carries no
modeled state), attaches the buffer, commits, and moves the surface state to
`SURFACE_ATTACHED`.  Any failing step returns 0. -/
def RenderFrame (sendOk : SendOracle) (s : ApplicationState) :
    Option (Nat × ApplicationState × List Output) :=
  match (if s.shm_pool_id = 0 then CreateShmPool sendOk s
    else some (1, s, [])) with
  | none => none
  | some r1 =>
    if r1.1 = 0 then some (0, r1.2.1, r1.2.2)
    else
      match (if r1.2.1.frame_buffer_id = 0 then CreateFrameBuffer sendOk r1.2.1
        else some (1, r1.2.1, [])) with
      | none => none
      | some r2 =>
        if r2.1 = 0 then some (0, r2.2.1, r1.2.2 ++ r2.2.2)
        else
          let a := AttachBuffer sendOk r2.2.1
          if a.1 = 0 then some (0, a.2.1, r1.2.2 ++ r2.2.2 ++ a.2.2)
          else
            let c := CommitSurface sendOk a.2.1
            if c.1 = 0 then
              some (0, c.2.1, r1.2.2 ++ r2.2.2 ++ a.2.2 ++ c.2.2)
            else
              some (1, {c.2.1 with surface_state := .SURFACE_ATTACHED},
                r1.2.2 ++ r2.2.2 ++ a.2.2 ++ c.2.2)

/-- The `if (BindingDone(s) && !s->surface_id)` block of the `EventLoop`
body: `BindingDone` is always evaluated (for its caching side effect); when
it reports 1 and no surface exists yet, the surface is created and initially
committed, any failure yielding result 0. -/
def surfaceCreationStep (sendOk : SendOracle) (s1 : ApplicationState) :
    Option (Nat × ApplicationState × List Output) :=
  let bd := BindingDone s1
  if bd.1 = 1 ∧ bd.2.surface_id = 0 then
    match CreateSurface sendOk bd.2 with
    | none => none
    | some cr =>
      if cr.1 = 0 then some (0, cr.2.1, cr.2.2)
      else
        let c := CommitSurface sendOk cr.2.1
        if c.1 = 0 then some (0, c.2.1, cr.2.2 ++ c.2.2)
        else some (1, c.2.1, cr.2.2 ++ c.2.2)
  else some (1, bd.2, [])

/-- The `if (s->surface_state == ACKED_CONFIGURE)` block of the `EventLoop`
body: render a frame, any failure yielding result 0. -/
def renderStep (sendOk : SendOracle) (s4 : ApplicationState) :
    Option (Nat × ApplicationState × List Output) :=
  if s4.surface_state = .ACKED_CONFIGURE then
    match RenderFrame sendOk s4 with
    | none => none
    | some rr =>
      if rr.1 = 0 then some (0, rr.2.1, rr.2.2)
      else some (1, rr.2.1, rr.2.2)
  else some (1, s4, [])

/-- One iteration of the `EventLoop` body after a successful `recv`:
process the batch, then the surface-creation block, then the render block.
Result 0 means the loop returns 0 to `main`; result 1 means it loops
again. -/
def eventLoopIter (sendOk : SendOracle) (s : ApplicationState)
    (recv_buffer : List Nat) (bytes_read : Nat) :
    Option (Nat × ApplicationState × List Output) :=
  match ProcessWaylandEvents sendOk s recv_buffer bytes_read with
  | none => none
  | some pr =>
    if pr.1 = 0 then some (0, pr.2.1, pr.2.2)
    else
      match surfaceCreationStep sendOk pr.2.1 with
      | none => none
      | some sr =>
        if sr.1 = 0 then some (0, sr.2.1, pr.2.2 ++ sr.2.2)
        else
          match renderStep sendOk sr.2.1 with
          | none => none
          | some rr =>
            if rr.1 = 0 then
              some (0, rr.2.1, pr.2.2 ++ sr.2.2 ++ rr.2.2)
            else some (1, rr.2.1, pr.2.2 ++ sr.2.2 ++ rr.2.2)

/-- One `recv` outcome observed by `EventLoop`: an error return, or a chunk
of `bytes_read` bytes in the receive buffer. -/
inductive RecvInput where
  | recvError
  | chunk (bytes : List Nat) (bytes_read : Nat)

/-- `EventLoop` over the sequence of `recv` outcomes of a run.  The list
ending corresponds to `should_exit` being observed set (the loop condition),
which returns 1; a receive error or any failing iteration returns 0. -/
def EventLoop (sendOk : SendOracle) (s : ApplicationState) :
    List RecvInput → Option (Nat × ApplicationState)
  | [] => some (1, s)
  | RecvInput.recvError :: _ => some (0, s)
  | RecvInput.chunk bytes bytes_read :: rest =>
    match eventLoopIter sendOk s bytes bytes_read with
    | none => none
    | some r =>
      if r.1 = 0 then some (0, r.2.1)
      else EventLoop sendOk r.2.1 rest

/-- How far `main` got before (or through) the event loop. -/
inductive SetupOutcome where
  | connectFail
  | shmOpenFail
  | registryFail
  | sigactionFail
  | setupOk
  deriving DecidableEq

/-- The exit status of `main`: each failing setup step returns 1, and once
`EventLoop` has run, `main` prints one of the two closing messages, calls
`CleanupState`, and reaches `return 0` — whatever `event_loop_result`
(the `result` variable of `main`) was. -/
def mainExitCode (setup : SetupOutcome) (event_loop_result : Nat) : Nat :=
  match setup with
  | .connectFail => 1
  | .shmOpenFail => 1
  | .registryFail => 1
  | .sigactionFail => 1
  | .setupOk => 0

/-- The application state right after `main`'s initialization: ids zeroed,
image geometry as set by `main`, allocator counter at its initial 1. -/
def initState : ApplicationState :=
  { registry_id := 0, shm_id := 0, shm_pool_id := 0, frame_buffer_id := 0,
    compositor_id := 0, xdg_wm_base_id := 0, surface_id := 0,
    xdg_surface_id := 0, xdg_toplevel_id := 0, binding_done := 0,
    surface_state := .NONE, width := 256, height := 256, stride := 1024,
    image_buffer_size := 262144, next_id := 1, send_count := 0 }

/-- A send oracle on which every send succeeds. -/
def allOk : SendOracle := fun _ => true

/-- A state with the shell surface created and a frame already attached. -/
def attachedState : ApplicationState :=
  { initState with
    registry_id := 3, shm_id := 4, compositor_id := 5,
    xdg_wm_base_id := 6, surface_id := 7, xdg_surface_id := 8,
    xdg_toplevel_id := 9, shm_pool_id := 10, frame_buffer_id := 11,
    binding_done := 1, surface_state := .SURFACE_ATTACHED, next_id := 11 }

/-- A state with only the top-level role object created, for exercising the
top-level configure branch. -/
def toplevelState : ApplicationState := { initState with xdg_toplevel_id := 9 }

/-- A state with only the shared-memory factory bound. -/
def shmBoundState : ApplicationState := { initState with shm_id := 5 }

theorem RoundUp4_one : RoundUp4 1 = 4 := by
  simp [RoundUp4]

theorem RoundUp4_four : RoundUp4 4 = 4 := by
  simp [RoundUp4]

theorem uint32At_bytes (v : Nat) (r : List Nat) (h : v < 4294967296) :
    uint32At (uint32Bytes v ++ r) 0 = v := by
  show v % 256 + v / 256 % 256 * 256 + v / 65536 % 256 * 65536 +
    v / 16777216 % 256 * 16777216 = v
  omega

theorem uint32At_bytes4 (a v : Nat) (r : List Nat) (h : v < 4294967296) :
    uint32At (uint32Bytes a ++ (uint32Bytes v ++ r)) 4 = v := by
  show v % 256 + v / 256 % 256 * 256 + v / 65536 % 256 * 65536 +
    v / 16777216 % 256 * 16777216 = v
  omega

theorem drop8_bytes (a b : Nat) (r : List Nat) :
    (uint32Bytes a ++ (uint32Bytes b ++ r)).drop 8 = r := rfl

/-- C3 is refuted: encoding the empty string produces 8 bytes, not 4, and
its length field holds 1 (the counted terminator), not 0. -/
theorem C3_counterexample :
    AppendWaylandString [] 64 [] = some [1, 0, 0, 0, 0, 0, 0, 0] ∧
    ([1, 0, 0, 0, 0, 0, 0, 0] : List Nat).length ≠ 4 ∧
    uint32At [1, 0, 0, 0, 0, 0, 0, 0] 0 ≠ 0 := by
  refine ⟨?_, by decide, by decide⟩
  simp [AppendWaylandString, RoundUp4_one, AppendUint32, uint32Bytes]

/-- C3 (amended): encoding the empty string with `AppendWaylandString`
produces exactly 8 bytes: a length field containing 1 (the terminator is
counted in the length), then one terminator byte and three bytes of zero
padding. -/
theorem C3_empty_string (buffer : List Nat) (buffer_capacity : Nat)
    (h : 8 ≤ buffer_capacity - buffer.length) :
    AppendWaylandString buffer buffer_capacity [] =
      some (buffer ++ [1, 0, 0, 0, 0, 0, 0, 0]) := by
  simp only [AppendWaylandString, List.length_nil, Nat.zero_add, RoundUp4_one]
  rw [if_neg (by omega)]
  simp [AppendUint32, uint32Bytes]

theorem C3_empty_string_witness :
    AppendWaylandString [] 64 [] = some ([] ++ [1, 0, 0, 0, 0, 0, 0, 0]) :=
  C3_empty_string [] 64 (by norm_num)

theorem NextWaylandIDRun_closed (k : Nat) (h : k + 1 ≤ 0xfeffffff) :
    NextWaylandIDRun k = some (k + 1) := by
  induction k with
  | zero => rfl
  | succ n ih =>
    rw [NextWaylandIDRun, ih (by omega)]
    simp only [NextWaylandID]
    rw [if_neg (by omega)]

/-- C4 is refuted at the boundary: the 4278190078-th allocator call returns
the identifier 0xfeffffff itself, which is ≥ 0xfeffffff, with no fatal
stop (the source only rejects identifiers strictly above 0xfeffffff). -/
theorem C4_counterexample :
    NextWaylandIDRun 4278190078 = some 4278190079 ∧
    ¬ 4278190079 < (0xfeffffff : Nat) :=
  ⟨NextWaylandIDRun_closed 4278190078 (by norm_num), by norm_num⟩

/-- C4 (amended): the k-th allocator call returns k + 1, so successive calls
yield strictly increasing identifiers starting at 2; every identifier ever
returned is ≤ 0xfeffffff (only values strictly above 0xfeffffff are
reserved for the server); and once the counter would pass the ceiling the
allocator exits fatally instead of wrapping around. -/
theorem C4_allocator (k : Nat) (hk : 1 ≤ k) (h : k + 1 ≤ 0xfeffffff) :
    (NextWaylandIDRun k = some (k + 1) ∧ NextWaylandIDRun 1 = some 2) ∧
    (∀ c v c2, NextWaylandID c = some (v, c2) → v ≤ 0xfeffffff) ∧
    (∀ c, 0xfeffffff ≤ c → NextWaylandID c = none) := by
  refine ⟨⟨NextWaylandIDRun_closed k h, NextWaylandIDRun_closed 1 (by norm_num)⟩,
    ?_, ?_⟩
  · intro c v c2 hc
    simp only [NextWaylandID] at hc
    split at hc
    · simp at hc
    · simp only [Option.some.injEq, Prod.mk.injEq] at hc
      omega
  · intro c hc
    simp only [NextWaylandID]
    rw [if_pos (by omega)]

theorem C4_allocator_witness :
    (NextWaylandIDRun 1 = some (1 + 1) ∧ NextWaylandIDRun 1 = some 2) ∧
    (∀ c v c2, NextWaylandID c = some (v, c2) → v ≤ 0xfeffffff) ∧
    (∀ c, 0xfeffffff ≤ c → NextWaylandID c = none) :=
  C4_allocator 1 (by norm_num) (by norm_num)

theorem writeRead_roundtrip (object_id opcode : Nat)
    (payload padding : List Nat)
    (h1 : object_id < 4294967296) (h2 : opcode < 65536)
    (h3 : payload.length + 8 < 65536) :
    ReadWaylandEvent
        (WriteWaylandMessage ⟨object_id, opcode, payload.length, some payload⟩
          padding) 0 =
      some (⟨object_id, opcode, payload.length,
          if payload.length = 0 then none else some payload⟩,
        8 + RoundUp4 payload.length) := by
  have hlen : payload.length % 65536 = payload.length := by omega
  simp only [WriteWaylandMessage, AppendUint32, List.nil_append,
    List.append_assoc]
  simp only [hlen]
  have hw : (payload.length + 8) * 65536 % 4294967296 + opcode % 65536 =
      (payload.length + 8) * 65536 + opcode := by omega
  simp only [hw]
  have hwlt : (payload.length + 8) * 65536 + opcode < 4294967296 := by omega
  simp only [ReadWaylandEvent, ReadUint32]
  rw [uint32At_bytes _ _ h1, uint32At_bytes4 _ _ _ hwlt]
  have hdiv : ((payload.length + 8) * 65536 + opcode) / 65536 =
      payload.length + 8 := by omega
  have hmod : ((payload.length + 8) * 65536 + opcode) % 65536 = opcode := by
    omega
  rw [hdiv, hmod, if_neg (by omega)]
  have hsub : payload.length + 8 - 8 = payload.length := by omega
  simp only [hsub, Nat.zero_add]
  rw [drop8_bytes]
  by_cases hz : payload.length = 0
  · simp [hz]
  · have hpos : 0 < payload.length := Nat.pos_of_ne_zero hz
    simp only [if_neg hz, if_pos hpos, gt_iff_lt, Option.getD_some,
      List.take_length]
    rw [List.take_left]

/-- C5: decoding the encoding of a message whose payload is shorter than
2^16 − 8 bytes recovers the same object id, opcode, payload size and payload
bytes, whatever indeterminate padding bytes the encoder left after the
payload. -/
theorem C5_roundtrip (object_id opcode : Nat) (payload padding : List Nat)
    (h1 : object_id < 4294967296) (h2 : opcode < 65536)
    (h3 : payload.length + 8 < 65536) :
    ReadWaylandEvent
        (WriteWaylandMessage ⟨object_id, opcode, payload.length, some payload⟩
          padding) 0 =
      some (⟨object_id, opcode, payload.length,
          if payload.length = 0 then none else some payload⟩,
        8 + RoundUp4 payload.length) :=
  writeRead_roundtrip object_id opcode payload padding h1 h2 h3

theorem C5_roundtrip_witness :
    ReadWaylandEvent
        (WriteWaylandMessage
          ⟨3, 5, ([1, 2, 3] : List Nat).length, some [1, 2, 3]⟩ [0]) 0 =
      some (⟨3, 5, ([1, 2, 3] : List Nat).length,
          if ([1, 2, 3] : List Nat).length = 0 then none else some [1, 2, 3]⟩,
        8 + RoundUp4 ([1, 2, 3] : List Nat).length) :=
  C5_roundtrip 3 5 [1, 2, 3] [0] (by norm_num) (by norm_num) (by norm_num)

/-- C6: a message header declaring a total size below the 8-byte minimum is
rejected: `ReadWaylandEvent` stops the run (models `exit(1)`) instead of
producing an event, the batch loop never advances past the malformed header,
and the whole event loop terminates. -/
theorem C6_short_size (buffer : List Nat) (off : Nat) (sendOk : SendOracle)
    (s : ApplicationState) (buffer_size : Nat)
    (hsz : uint32At buffer (off + 4) / 65536 < 8)
    (hoff : off < buffer_size) :
    ReadWaylandEvent buffer off = none ∧
    ProcessLoop sendOk s buffer buffer_size off = none ∧
    (∀ rest : List RecvInput, off = 0 →
      EventLoop sendOk s (RecvInput.chunk buffer buffer_size :: rest) =
        none) := by
  have h1 : ReadWaylandEvent buffer off = none := by
    simp only [ReadWaylandEvent, ReadUint32]
    rw [if_pos hsz]
  have h2 : ProcessLoop sendOk s buffer buffer_size off = none := by
    rw [ProcessLoop, dif_pos hoff]
    split <;> simp_all
  refine ⟨h1, h2, ?_⟩
  intro rest h0
  subst h0
  simp [EventLoop, eventLoopIter, ProcessWaylandEvents, h2]

theorem C6_short_size_witness :
    uint32At [0, 0, 0, 0, 0, 0, 4, 0] 4 / 65536 < 8 ∧ (0 : Nat) < 8 ∧
    ReadWaylandEvent [0, 0, 0, 0, 0, 0, 4, 0] 0 = none ∧
    ProcessLoop allOk initState [0, 0, 0, 0, 0, 0, 4, 0] 8 0 = none :=
  ⟨by decide, by decide,
    (C6_short_size [0, 0, 0, 0, 0, 0, 4, 0] 0 allOk initState 8 (by decide)
      (by decide)).1,
    (C6_short_size [0, 0, 0, 0, 0, 0, 4, 0] 0 allOk initState 8 (by decide)
      (by decide)).2.1⟩

/-- C8: an event whose (object id, opcode) pair matches none of the handler
branches is logged and fails the whole batch: the handler returns 0 with the
state unchanged, the batch loop stops at once with result 0 having
dispatched nothing beyond that event, and an iteration that reports 0 makes
the event loop return 0 without reading further input. -/
theorem C8_unsupported (sendOk : SendOracle) (s : ApplicationState)
    (e : ParsedWaylandEvent)
    (hg1 : ¬(e.object_id = s.registry_id ∧
      e.opcode = WAYLAND_REGISTRY_GLOBAL_EVENT))
    (hg2 : ¬(e.object_id = WAYLAND_DISPLAY_OBJECT_ID ∧
      e.opcode = WAYLAND_DISPLAY_ERROR_EVENT))
    (hg3 : ¬(e.object_id = s.xdg_wm_base_id ∧ e.opcode = XDG_WM_PING_EVENT))
    (hg4 : ¬(e.object_id = s.xdg_surface_id ∧
      e.opcode = XDG_SURFACE_CONFIGURE_EVENT))
    (hg5 : ¬(e.object_id = s.xdg_toplevel_id ∧
      e.opcode = XDG_TOPLEVEL_CONFIGURE_EVENT))
    (hg6 : ¬(e.object_id = s.shm_id ∧ e.opcode = WAYLAND_SHM_FORMAT_EVENT)) :
    HandleWaylandEvent sendOk s e =
      some (0, s, [Output.logUnsupported e.opcode e.object_id]) ∧
    (∀ buffer : List Nat, ∀ buffer_size off offset2 : Nat,
      off < buffer_size →
      ReadWaylandEvent buffer off = some (e, offset2) →
      batchOverflowCheck offset2 buffer_size = false →
      ProcessLoop sendOk s buffer buffer_size off =
        some (0, s, [Output.logUnsupported e.opcode e.object_id,
          Output.logHandleFailed e.opcode e.object_id])) ∧
    (∀ bytes : List Nat, ∀ n : Nat, ∀ rest : List RecvInput,
      ∀ s2 : ApplicationState, ∀ out : List Output,
      eventLoopIter sendOk s bytes n = some (0, s2, out) →
      EventLoop sendOk s (RecvInput.chunk bytes n :: rest) =
        some (0, s2)) := by
  have h1 : HandleWaylandEvent sendOk s e =
      some (0, s, [Output.logUnsupported e.opcode e.object_id]) := by
    simp only [HandleWaylandEvent, if_neg hg1, if_neg hg2, if_neg hg3,
      if_neg hg4, if_neg hg5, if_neg hg6]
  refine ⟨h1, ?_, ?_⟩
  · intro buffer buffer_size off offset2 hofs hre hguard
    rw [ProcessLoop, dif_pos hofs]
    split
    · next heq => rw [hre] at heq; simp at heq
    · next event offx heq =>
      rw [hre] at heq
      simp only [Option.some.injEq, Prod.mk.injEq] at heq
      obtain ⟨he, ho⟩ := heq
      subst he
      subst ho
      simp [hguard, h1]
  · intro bytes n rest s2 out hiter
    simp [EventLoop, hiter]

theorem C8_unsupported_witness :
    HandleWaylandEvent allOk initState ⟨99, 5, 0, none⟩ =
      some (0, initState, [Output.logUnsupported 5 99]) :=
  (C8_unsupported allOk initState ⟨99, 5, 0, none⟩ (by decide) (by decide)
    (by decide) (by decide) (by decide) (by decide)).1

/-- C9: the top-level configure branch reports success (returns 1) for every
payload size, including sizes below 8, and always performs the two 4-byte
payload reads for its width/height log — reads that go through a NULL
payload pointer when the payload size is 0 — because the short-payload
branch only prints a message and does not return. -/
theorem C9_toplevel_configure (sendOk : SendOracle) (s : ApplicationState)
    (e : ParsedWaylandEvent)
    (hg1 : ¬(e.object_id = s.registry_id ∧
      e.opcode = WAYLAND_REGISTRY_GLOBAL_EVENT))
    (hg2 : ¬(e.object_id = WAYLAND_DISPLAY_OBJECT_ID ∧
      e.opcode = WAYLAND_DISPLAY_ERROR_EVENT))
    (hg3 : ¬(e.object_id = s.xdg_wm_base_id ∧ e.opcode = XDG_WM_PING_EVENT))
    (hg4 : ¬(e.object_id = s.xdg_surface_id ∧
      e.opcode = XDG_SURFACE_CONFIGURE_EVENT))
    (ht : e.object_id = s.xdg_toplevel_id)
    (hop : e.opcode = XDG_TOPLEVEL_CONFIGURE_EVENT) :
    HandleWaylandEvent sendOk s e =
      some (1, s,
        (if e.payload_size < 8 then [Output.logShortToplevel e.payload_size]
          else []) ++
        [Output.logToplevelConfigure (payloadRead32 e.payload 0)
          (payloadRead32 e.payload 4)]) ∧
    (e.payload = none →
      payloadRead32 e.payload 0 = none ∧
        payloadRead32 e.payload 4 = none) := by
  constructor
  · simp only [HandleWaylandEvent, if_neg hg1, if_neg hg2, if_neg hg3,
      if_neg hg4]
    rw [if_pos (And.intro ht hop)]
  · intro hnull
    rw [hnull]
    exact ⟨rfl, rfl⟩

theorem C9_toplevel_configure_witness :
    HandleWaylandEvent allOk toplevelState ⟨9, 0, 0, none⟩ =
      some (1, toplevelState,
        (if (0 : Nat) < 8 then [Output.logShortToplevel 0] else []) ++
        [Output.logToplevelConfigure (payloadRead32 none 0)
          (payloadRead32 none 4)]) :=
  (C9_toplevel_configure allOk toplevelState ⟨9, 0, 0, none⟩ (by decide)
    (by decide) (by decide) (by decide) (by decide) (by decide)).1

/-- C10: the batch-overflow guard fires exactly when the decoded message's
end offset exceeds the received byte count by at least 2, so a message whose
declared extent ends exactly one byte past the received data passes the
guard and is dispatched as if complete — shown on a wl_shm format event
whose 12-byte extent ends one byte past an 11-byte batch, which is handled
(its format log is emitted) and the batch reports success. -/
theorem C10_overflow_guard :
    (∀ buffer_offset buffer_size : Nat,
      batchOverflowCheck buffer_offset buffer_size = true ↔
        buffer_size + 2 ≤ buffer_offset) ∧
    ProcessLoop allOk shmBoundState
        (WriteWaylandMessage ⟨5, 0, 4, some [99, 0, 0, 0]⟩ []) 11 0 =
      some (1, shmBoundState, [Output.logFormat 99]) := by
  constructor
  · intro a b
    simp only [batchOverflowCheck, decide_eq_true_eq]
    omega
  · have hre := writeRead_roundtrip 5 0 [99, 0, 0, 0] [] (by norm_num)
      (by norm_num) (by norm_num)
    norm_num [RoundUp4_four] at hre
    rw [ProcessLoop, dif_pos (by norm_num : (0 : Nat) < 11)]
    split
    · next heq => rw [hre] at heq; simp at heq
    · next event offx heq =>
      rw [hre] at heq
      simp only [Option.some.injEq, Prod.mk.injEq] at heq
      obtain ⟨he, ho⟩ := heq
      subst he
      subst ho
      have hguard : batchOverflowCheck 12 11 = false := by decide
      have hh : HandleWaylandEvent allOk shmBoundState
          ⟨5, 0, 4, some [99, 0, 0, 0]⟩ =
          some (1, shmBoundState, [Output.logFormat 99]) := by decide
      simp only [hguard, Bool.false_eq_true, if_false, hh]
      rw [ProcessLoop, dif_neg (by norm_num : ¬(12 : Nat) < 11)]
      simp

/-- C1 is refuted: a run whose event loop fails (here the first receive
errors out, one of the failure paths the claim lists) still reaches the
`return 0` at the end of `main`, so the process exits with status 0, the
same status as a clean shutdown — not with status 1. -/
theorem C1_counterexample :
    EventLoop allOk initState [RecvInput.recvError] = some (0, initState) ∧
    mainExitCode SetupOutcome.setupOk 0 = 0 ∧
    mainExitCode SetupOutcome.setupOk 0 ≠ 1 :=
  ⟨rfl, rfl, by decide⟩

/-- C1 (amended): whatever result the event loop hands back — 0 for its
error paths (receive failure, batch failure, surface-creation or render
failure) or 1 for a clean shutdown — `main` tears down and exits with
status 0; status 1 arises only when a setup step (connect, shared-memory
open, registry request, signal-handler installation) fails before the
loop. -/
theorem C1_exit_codes (sendOk : SendOracle) (s : ApplicationState)
    (inputs : List RecvInput) (r : Nat) (s2 : ApplicationState)
    (h : EventLoop sendOk s inputs = some (r, s2)) :
    mainExitCode SetupOutcome.setupOk r = 0 ∧
    (∀ r2 : Nat, mainExitCode SetupOutcome.connectFail r2 = 1 ∧
      mainExitCode SetupOutcome.shmOpenFail r2 = 1 ∧
      mainExitCode SetupOutcome.registryFail r2 = 1 ∧
      mainExitCode SetupOutcome.sigactionFail r2 = 1) :=
  ⟨rfl, fun _ => ⟨rfl, rfl, rfl, rfl⟩⟩

theorem C1_exit_codes_witness :
    mainExitCode SetupOutcome.setupOk 0 = 0 :=
  (C1_exit_codes allOk initState [RecvInput.recvError] 0 initState rfl).1

theorem ReadWaylandEvent_offset_lt {buffer : List Nat} {off : Nat}
    {e : ParsedWaylandEvent} {off2 : Nat}
    (h : ReadWaylandEvent buffer off = some (e, off2)) : off < off2 := by
  simp only [ReadWaylandEvent, ReadUint32] at h
  split at h
  · simp at h
  · simp only [Option.some.injEq, Prod.mk.injEq] at h
    omega

theorem optionElim_imp {α : Type} {F : Option α} {P Q : α → Prop}
    (h : F.elim True P) (himp : ∀ r, P r → Q r) : F.elim True Q := by
  cases F with
  | none => trivial
  | some r => exact himp r h

theorem WaylandRegistryBind_presF (sendOk : SendOracle)
    (s : ApplicationState) (name : Nat) (iface : List Nat) (ver : Nat) :
    (WaylandRegistryBind sendOk s name iface ver).elim True
      (fun r => r.2.1.binding_done = s.binding_done ∧
        r.2.1.surface_state = s.surface_state) := by
  simp only [WaylandRegistryBind, doSend]
  split
  · trivial
  · split
    · exact ⟨rfl, rfl⟩
    · split <;> exact ⟨rfl, rfl⟩

theorem registryStageComp_presF (sendOk : SendOracle) (s : ApplicationState)
    (name : Nat) (iface : List Nat) (ver : Nat) (acc : List Output) :
    (registryStageComp sendOk s name iface ver acc).elim True
      (fun r => r.2.1.binding_done = s.binding_done ∧
        r.2.1.surface_state = s.surface_state) := by
  simp only [registryStageComp]
  split
  · have hp := WaylandRegistryBind_presF sendOk s name iface ver
    cases hw : WaylandRegistryBind sendOk s name iface ver with
    | none => trivial
    | some rr =>
      rw [hw] at hp
      replace hp : rr.2.1.binding_done = s.binding_done ∧
          rr.2.1.surface_state = s.surface_state := hp
      dsimp only
      split <;> exact ⟨hp.1, hp.2⟩
  · exact ⟨rfl, rfl⟩

theorem registryStageWm_presF (sendOk : SendOracle) (s : ApplicationState)
    (name : Nat) (iface : List Nat) (ver : Nat) (acc : List Output) :
    (registryStageWm sendOk s name iface ver acc).elim True
      (fun r => r.2.1.binding_done = s.binding_done ∧
        r.2.1.surface_state = s.surface_state) := by
  simp only [registryStageWm]
  split
  · have hp := WaylandRegistryBind_presF sendOk s name iface ver
    cases hw : WaylandRegistryBind sendOk s name iface ver with
    | none => trivial
    | some rr =>
      rw [hw] at hp
      replace hp : rr.2.1.binding_done = s.binding_done ∧
          rr.2.1.surface_state = s.surface_state := hp
      dsimp only
      split
      · exact ⟨hp.1, hp.2⟩
      · exact optionElim_imp (registryStageComp_presF sendOk _ name iface ver _)
          (fun r hq => ⟨hq.1.trans hp.1, hq.2.trans hp.2⟩)
  · exact registryStageComp_presF sendOk s name iface ver acc

theorem handleRegistryGlobal_presF (sendOk : SendOracle)
    (s : ApplicationState) (e : ParsedWaylandEvent) :
    (handleRegistryGlobal sendOk s e).elim True
      (fun r => r.2.1.binding_done = s.binding_done ∧
        r.2.1.surface_state = s.surface_state) := by
  simp only [handleRegistryGlobal]
  split
  · have hp := WaylandRegistryBind_presF sendOk s
      (ReadUint32 (e.payload.getD []) 0).1
      (ReadWaylandString (e.payload.getD []) 4).1
      (ReadUint32 (e.payload.getD [])
        (ReadWaylandString (e.payload.getD []) 4).2).1
    cases hw : WaylandRegistryBind sendOk s
        (ReadUint32 (e.payload.getD []) 0).1
        (ReadWaylandString (e.payload.getD []) 4).1
        (ReadUint32 (e.payload.getD [])
          (ReadWaylandString (e.payload.getD []) 4).2).1 with
    | none => trivial
    | some rr =>
      rw [hw] at hp
      replace hp : rr.2.1.binding_done = s.binding_done ∧
          rr.2.1.surface_state = s.surface_state := hp
      dsimp only
      split
      · exact ⟨hp.1, hp.2⟩
      · exact optionElim_imp (registryStageWm_presF sendOk _ _ _ _ _)
          (fun r hq => ⟨hq.1.trans hp.1, hq.2.trans hp.2⟩)
  · exact registryStageWm_presF sendOk s _ _ _ _

theorem SendXDGPong_pres (sendOk : SendOracle) (s : ApplicationState)
    (serial : Nat) :
    (SendXDGPong sendOk s serial).2.1.binding_done = s.binding_done ∧
      (SendXDGPong sendOk s serial).2.1.surface_state = s.surface_state := by
  simp only [SendXDGPong, doSend]
  split <;> exact ⟨rfl, rfl⟩

theorem AckXDGSurfaceConfigure_pres (sendOk : SendOracle)
    (s : ApplicationState) (serial : Nat) :
    (AckXDGSurfaceConfigure sendOk s serial).2.1.binding_done =
        s.binding_done ∧
      (AckXDGSurfaceConfigure sendOk s serial).2.1.surface_state =
        s.surface_state := by
  simp only [AckXDGSurfaceConfigure, doSend]
  split <;> exact ⟨rfl, rfl⟩

theorem HandleWaylandEvent_presF (sendOk : SendOracle) (s : ApplicationState)
    (e : ParsedWaylandEvent) :
    (HandleWaylandEvent sendOk s e).elim True
      (fun r => r.2.1.binding_done = s.binding_done ∧
        (r.2.1.surface_state = s.surface_state ∨
          r.2.1.surface_state = SurfaceState.ACKED_CONFIGURE)) := by
  simp only [HandleWaylandEvent]
  split
  · exact optionElim_imp (handleRegistryGlobal_presF sendOk s e)
      (fun r hp => ⟨hp.1, Or.inl hp.2⟩)
  · split
    · exact ⟨rfl, Or.inl rfl⟩
    · split
      · split
        · exact ⟨rfl, Or.inl rfl⟩
        · exact ⟨(SendXDGPong_pres sendOk s _).1,
            Or.inl (SendXDGPong_pres sendOk s _).2⟩
      · split
        · split
          · exact ⟨rfl, Or.inl rfl⟩
          · split
            · exact ⟨(AckXDGSurfaceConfigure_pres sendOk s _).1,
                Or.inl (AckXDGSurfaceConfigure_pres sendOk s _).2⟩
            · exact ⟨(AckXDGSurfaceConfigure_pres sendOk s _).1, Or.inr rfl⟩
        · split
          · exact ⟨rfl, Or.inl rfl⟩
          · split
            · split
              · exact ⟨rfl, Or.inl rfl⟩
              · exact ⟨rfl, Or.inl rfl⟩
            · exact ⟨rfl, Or.inl rfl⟩

theorem HandleWaylandEvent_pres {sendOk : SendOracle} {s : ApplicationState}
    {e : ParsedWaylandEvent} {r : Nat × ApplicationState × List Output}
    (h : HandleWaylandEvent sendOk s e = some r) :
    r.2.1.binding_done = s.binding_done ∧
      (r.2.1.surface_state = s.surface_state ∨
        r.2.1.surface_state = SurfaceState.ACKED_CONFIGURE) := by
  have hp := HandleWaylandEvent_presF sendOk s e
  rw [h] at hp
  exact hp

theorem ProcessLoop_presF (sendOk : SendOracle) (buffer : List Nat)
    (buffer_size : Nat) :
    ∀ gas off (s : ApplicationState), buffer_size - off ≤ gas →
    (ProcessLoop sendOk s buffer buffer_size off).elim True
      (fun r => r.2.1.binding_done = s.binding_done ∧
        (r.2.1.surface_state = s.surface_state ∨
          r.2.1.surface_state = SurfaceState.ACKED_CONFIGURE)) := by
  intro gas
  induction gas with
  | zero =>
    intro off s hle
    rw [ProcessLoop, dif_neg (by omega)]
    exact ⟨rfl, Or.inl rfl⟩
  | succ n ih =>
    intro off s hle
    by_cases ho : off < buffer_size
    · rw [ProcessLoop, dif_pos ho]
      cases hre : ReadWaylandEvent buffer off with
      | none => trivial
      | some pr =>
        obtain ⟨event, off2⟩ := pr
        dsimp only
        split
        · exact ⟨rfl, Or.inl rfl⟩
        · cases hh : HandleWaylandEvent sendOk s event with
          | none => trivial
          | some hr =>
            have hp := HandleWaylandEvent_pres hh
            obtain ⟨rv, s1, out1⟩ := hr
            dsimp only
            split
            · exact ⟨hp.1, hp.2⟩
            · have hlt := ReadWaylandEvent_offset_lt hre
              have hrec := ih off2 s1 (by omega)
              cases hq : ProcessLoop sendOk s1 buffer buffer_size off2 with
              | none => trivial
              | some r2 =>
                rw [hq] at hrec
                replace hrec : r2.2.1.binding_done = s1.binding_done ∧
                    (r2.2.1.surface_state = s1.surface_state ∨
                      r2.2.1.surface_state = SurfaceState.ACKED_CONFIGURE) :=
                  hrec
                obtain ⟨r2v, s2, out2⟩ := r2
                dsimp only
                refine ⟨hrec.1.trans hp.1, ?_⟩
                cases hrec.2 with
                | inl h1 =>
                  cases hp.2 with
                  | inl h2 => exact Or.inl (h1.trans h2)
                  | inr h2 => exact Or.inr (h1.trans h2)
                | inr h1 => exact Or.inr h1
    · rw [ProcessLoop, dif_neg ho]
      exact ⟨rfl, Or.inl rfl⟩

theorem ProcessLoop_pres {sendOk : SendOracle} {buffer : List Nat}
    {buffer_size off : Nat} {s : ApplicationState}
    {r : Nat × ApplicationState × List Output}
    (h : ProcessLoop sendOk s buffer buffer_size off = some r) :
    r.2.1.binding_done = s.binding_done ∧
      (r.2.1.surface_state = s.surface_state ∨
        r.2.1.surface_state = SurfaceState.ACKED_CONFIGURE) := by
  have hp := ProcessLoop_presF sendOk buffer buffer_size
    (buffer_size - off) off s (le_refl _)
  rw [h] at hp
  exact hp

theorem CreateWLSurface_presF (sendOk : SendOracle) (s : ApplicationState) :
    (CreateWLSurface sendOk s).elim True
      (fun r => r.2.1.binding_done = s.binding_done ∧
        r.2.1.surface_state = s.surface_state) := by
  simp only [CreateWLSurface, doSend]
  split
  · trivial
  · split <;> exact ⟨rfl, rfl⟩

theorem CreateXDGSurface_presF (sendOk : SendOracle) (s : ApplicationState) :
    (CreateXDGSurface sendOk s).elim True
      (fun r => r.2.1.binding_done = s.binding_done ∧
        r.2.1.surface_state = s.surface_state) := by
  simp only [CreateXDGSurface, doSend]
  split
  · trivial
  · split <;> exact ⟨rfl, rfl⟩

theorem GetXDGTopLevel_presF (sendOk : SendOracle) (s : ApplicationState) :
    (GetXDGTopLevel sendOk s).elim True
      (fun r => r.2.1.binding_done = s.binding_done ∧
        r.2.1.surface_state = s.surface_state) := by
  simp only [GetXDGTopLevel, doSend]
  split
  · trivial
  · split <;> exact ⟨rfl, rfl⟩

theorem CreateShmPool_presF (sendOk : SendOracle) (s : ApplicationState) :
    (CreateShmPool sendOk s).elim True
      (fun r => r.2.1.binding_done = s.binding_done ∧
        r.2.1.surface_state = s.surface_state) := by
  simp only [CreateShmPool, doSendFd]
  split
  · trivial
  · split <;> exact ⟨rfl, rfl⟩

theorem CreateFrameBuffer_presF (sendOk : SendOracle) (s : ApplicationState) :
    (CreateFrameBuffer sendOk s).elim True
      (fun r => r.2.1.binding_done = s.binding_done ∧
        r.2.1.surface_state = s.surface_state) := by
  simp only [CreateFrameBuffer, doSend]
  split
  · trivial
  · split <;> exact ⟨rfl, rfl⟩

theorem CommitSurface_pres (sendOk : SendOracle) (s : ApplicationState) :
    (CommitSurface sendOk s).2.1.binding_done = s.binding_done ∧
      (CommitSurface sendOk s).2.1.surface_state = s.surface_state := by
  simp only [CommitSurface, doSend]
  split <;> exact ⟨rfl, rfl⟩

theorem AttachBuffer_pres (sendOk : SendOracle) (s : ApplicationState) :
    (AttachBuffer sendOk s).2.1.binding_done = s.binding_done ∧
      (AttachBuffer sendOk s).2.1.surface_state = s.surface_state := by
  simp only [AttachBuffer, doSend]
  split <;> exact ⟨rfl, rfl⟩

theorem CreateSurface_presF (sendOk : SendOracle) (s : ApplicationState) :
    (CreateSurface sendOk s).elim True
      (fun r => r.2.1.binding_done = s.binding_done ∧
        r.2.1.surface_state = s.surface_state) := by
  simp only [CreateSurface]
  cases h1 : CreateWLSurface sendOk s with
  | none => trivial
  | some r1 =>
    have hp1 := CreateWLSurface_presF sendOk s
    rw [h1] at hp1
    replace hp1 : r1.2.1.binding_done = s.binding_done ∧
        r1.2.1.surface_state = s.surface_state := hp1
    dsimp only
    split
    · exact hp1
    · cases h2 : CreateXDGSurface sendOk r1.2.1 with
      | none => trivial
      | some r2 =>
        have hp2 := CreateXDGSurface_presF sendOk r1.2.1
        rw [h2] at hp2
        replace hp2 : r2.2.1.binding_done = r1.2.1.binding_done ∧
            r2.2.1.surface_state = r1.2.1.surface_state := hp2
        dsimp only
        split
        · exact ⟨hp2.1.trans hp1.1, hp2.2.trans hp1.2⟩
        · cases h3 : GetXDGTopLevel sendOk r2.2.1 with
          | none => trivial
          | some r3 =>
            have hp3 := GetXDGTopLevel_presF sendOk r2.2.1
            rw [h3] at hp3
            replace hp3 : r3.2.1.binding_done = r2.2.1.binding_done ∧
                r3.2.1.surface_state = r2.2.1.surface_state := hp3
            dsimp only
            split <;>
              exact ⟨hp3.1.trans (hp2.1.trans hp1.1),
                hp3.2.trans (hp2.2.trans hp1.2)⟩

theorem RenderFrame_presF (sendOk : SendOracle) (s : ApplicationState) :
    (RenderFrame sendOk s).elim True
      (fun r => r.2.1.binding_done = s.binding_done ∧
        (r.2.1.surface_state = s.surface_state ∨
          r.2.1.surface_state = SurfaceState.SURFACE_ATTACHED)) := by
  simp only [RenderFrame]
  have hpool : (if s.shm_pool_id = 0 then CreateShmPool sendOk s
      else some (1, s, [])).elim True
      (fun r => r.2.1.binding_done = s.binding_done ∧
        r.2.1.surface_state = s.surface_state) := by
    split
    · exact CreateShmPool_presF sendOk s
    · exact ⟨rfl, rfl⟩
  cases h1 : (if s.shm_pool_id = 0 then CreateShmPool sendOk s
      else some (1, s, [])) with
  | none => trivial
  | some r1 =>
    rw [h1] at hpool
    replace hpool : r1.2.1.binding_done = s.binding_done ∧
        r1.2.1.surface_state = s.surface_state := hpool
    dsimp only
    split
    · exact ⟨hpool.1, Or.inl hpool.2⟩
    · have hfbF : (if r1.2.1.frame_buffer_id = 0 then
          CreateFrameBuffer sendOk r1.2.1 else some (1, r1.2.1, [])).elim True
          (fun r => r.2.1.binding_done = r1.2.1.binding_done ∧
            r.2.1.surface_state = r1.2.1.surface_state) := by
        split
        · exact CreateFrameBuffer_presF sendOk r1.2.1
        · exact ⟨rfl, rfl⟩
      cases h2 : (if r1.2.1.frame_buffer_id = 0 then
          CreateFrameBuffer sendOk r1.2.1 else some (1, r1.2.1, [])) with
      | none => trivial
      | some r2 =>
        rw [h2] at hfbF
        replace hfbF : r2.2.1.binding_done = r1.2.1.binding_done ∧
            r2.2.1.surface_state = r1.2.1.surface_state := hfbF
        dsimp only
        split
        · exact ⟨hfbF.1.trans hpool.1, Or.inl (hfbF.2.trans hpool.2)⟩
        · have ha := AttachBuffer_pres sendOk r2.2.1
          split
          · exact ⟨ha.1.trans (hfbF.1.trans hpool.1),
              Or.inl (ha.2.trans (hfbF.2.trans hpool.2))⟩
          · have hc := CommitSurface_pres sendOk
              (AttachBuffer sendOk r2.2.1).2.1
            split
            · exact ⟨(hc.1.trans ha.1).trans (hfbF.1.trans hpool.1),
                Or.inl ((hc.2.trans ha.2).trans (hfbF.2.trans hpool.2))⟩
            · exact ⟨(hc.1.trans ha.1).trans (hfbF.1.trans hpool.1),
                Or.inr rfl⟩

theorem RenderFrame_pres {sendOk : SendOracle} {s : ApplicationState}
    {r : Nat × ApplicationState × List Output}
    (h : RenderFrame sendOk s = some r) :
    r.2.1.binding_done = s.binding_done ∧
      (r.2.1.surface_state = s.surface_state ∨
        r.2.1.surface_state = SurfaceState.SURFACE_ATTACHED) := by
  have hp := RenderFrame_presF sendOk s
  rw [h] at hp
  exact hp

theorem CreateSurface_pres {sendOk : SendOracle} {s : ApplicationState}
    {r : Nat × ApplicationState × List Output}
    (h : CreateSurface sendOk s = some r) :
    r.2.1.binding_done = s.binding_done ∧
      r.2.1.surface_state = s.surface_state := by
  have hp := CreateSurface_presF sendOk s
  rw [h] at hp
  exact hp

theorem BindingDone_props (s : ApplicationState) :
    ((BindingDone s).1 = 1 ↔ (s.binding_done ≠ 0 ∨
      (s.shm_id ≠ 0 ∧ s.compositor_id ≠ 0 ∧ s.xdg_wm_base_id ≠ 0))) ∧
    ((BindingDone s).1 = 1 → (BindingDone s).2.binding_done ≠ 0) ∧
    (s.binding_done ≠ 0 → (BindingDone s).1 = 1) ∧
    ((BindingDone s).2.binding_done = s.binding_done ∨
      (BindingDone s).2.binding_done = 1) ∧
    (BindingDone s).2.surface_state = s.surface_state := by
  by_cases h1 : s.binding_done ≠ 0
  · have hbd : BindingDone s = (1, s) := by
      unfold BindingDone
      rw [if_pos h1]
    rw [hbd]
    exact ⟨⟨fun _ => Or.inl h1, fun _ => rfl⟩, fun _ => h1, fun _ => rfl,
      Or.inl rfl, rfl⟩
  · by_cases h2 : s.shm_id ≠ 0 ∧ s.compositor_id ≠ 0 ∧ s.xdg_wm_base_id ≠ 0
    · have hbd : BindingDone s = (1, {s with binding_done := 1}) := by
        unfold BindingDone
        rw [if_neg h1, if_pos h2]
      rw [hbd]
      exact ⟨⟨fun _ => Or.inr h2, fun _ => rfl⟩, fun _ => Nat.one_ne_zero,
        fun _ => rfl, Or.inr rfl, rfl⟩
    · have hbd : BindingDone s = (0, s) := by
        unfold BindingDone
        rw [if_neg h1, if_neg h2]
      rw [hbd]
      exact ⟨⟨fun h01 => absurd h01 Nat.zero_ne_one,
        fun hor => absurd (hor.resolve_left h1) h2⟩,
        fun h01 => absurd h01 Nat.zero_ne_one, fun hb => absurd hb h1,
        Or.inl rfl, rfl⟩

theorem bindingChain {a b c : Nat} (h1 : a = b ∨ a = 1) (h2 : b = c ∨ b = 1) :
    a = c ∨ a = 1 := by
  rcases h1 with h | h
  · rcases h2 with g | g
    · exact Or.inl (h.trans g)
    · exact Or.inr (h.trans g)
  · exact Or.inr h

theorem surfaceChain {x y z : SurfaceState}
    (h1 : x = y ∨ x = SurfaceState.ACKED_CONFIGURE ∨
      x = SurfaceState.SURFACE_ATTACHED)
    (h2 : y = z ∨ y = SurfaceState.ACKED_CONFIGURE ∨
      y = SurfaceState.SURFACE_ATTACHED) :
    x = z ∨ x = SurfaceState.ACKED_CONFIGURE ∨
      x = SurfaceState.SURFACE_ATTACHED := by
  rcases h1 with h | h | h
  · rcases h2 with g | g | g
    · exact Or.inl (h.trans g)
    · exact Or.inr (Or.inl (h.trans g))
    · exact Or.inr (Or.inr (h.trans g))
  · exact Or.inr (Or.inl h)
  · exact Or.inr (Or.inr h)

theorem surfaceCreationStep_presF (sendOk : SendOracle)
    (s1 : ApplicationState) :
    (surfaceCreationStep sendOk s1).elim True
      (fun r => (r.2.1.binding_done = s1.binding_done ∨
          r.2.1.binding_done = 1) ∧
        r.2.1.surface_state = s1.surface_state) := by
  have hbd := BindingDone_props s1
  simp only [surfaceCreationStep]
  split
  · cases hc : CreateSurface sendOk (BindingDone s1).2 with
    | none => trivial
    | some cr =>
      have hpc := CreateSurface_pres hc
      dsimp only
      split
      · exact ⟨bindingChain (Or.inl hpc.1) hbd.2.2.2.1,
          hpc.2.trans hbd.2.2.2.2⟩
      · have hcc := CommitSurface_pres sendOk cr.2.1
        split
        · exact ⟨bindingChain (Or.inl (hcc.1.trans hpc.1)) hbd.2.2.2.1,
            (hcc.2.trans hpc.2).trans hbd.2.2.2.2⟩
        · exact ⟨bindingChain (Or.inl (hcc.1.trans hpc.1)) hbd.2.2.2.1,
            (hcc.2.trans hpc.2).trans hbd.2.2.2.2⟩
  · exact ⟨hbd.2.2.2.1, hbd.2.2.2.2⟩

theorem surfaceCreationStep_pres {sendOk : SendOracle}
    {s1 : ApplicationState} {r : Nat × ApplicationState × List Output}
    (h : surfaceCreationStep sendOk s1 = some r) :
    (r.2.1.binding_done = s1.binding_done ∨ r.2.1.binding_done = 1) ∧
      r.2.1.surface_state = s1.surface_state := by
  have hp := surfaceCreationStep_presF sendOk s1
  rw [h] at hp
  exact hp

theorem renderStep_presF (sendOk : SendOracle) (s4 : ApplicationState) :
    (renderStep sendOk s4).elim True
      (fun r => r.2.1.binding_done = s4.binding_done ∧
        (r.2.1.surface_state = s4.surface_state ∨
          r.2.1.surface_state = SurfaceState.SURFACE_ATTACHED)) := by
  simp only [renderStep]
  split
  · cases hr : RenderFrame sendOk s4 with
    | none => trivial
    | some rr =>
      have hpr := RenderFrame_pres hr
      dsimp only
      split <;> exact ⟨hpr.1, hpr.2⟩
  · exact ⟨rfl, Or.inl rfl⟩

theorem renderStep_pres {sendOk : SendOracle} {s4 : ApplicationState}
    {r : Nat × ApplicationState × List Output}
    (h : renderStep sendOk s4 = some r) :
    r.2.1.binding_done = s4.binding_done ∧
      (r.2.1.surface_state = s4.surface_state ∨
        r.2.1.surface_state = SurfaceState.SURFACE_ATTACHED) := by
  have hp := renderStep_presF sendOk s4
  rw [h] at hp
  exact hp

theorem eventLoopIter_presF (sendOk : SendOracle) (s : ApplicationState)
    (bytes : List Nat) (n : Nat) :
    (eventLoopIter sendOk s bytes n).elim True
      (fun r => (r.2.1.binding_done = s.binding_done ∨
          r.2.1.binding_done = 1) ∧
        (r.2.1.surface_state = s.surface_state ∨
          r.2.1.surface_state = SurfaceState.ACKED_CONFIGURE ∨
          r.2.1.surface_state = SurfaceState.SURFACE_ATTACHED)) := by
  simp only [eventLoopIter, ProcessWaylandEvents]
  cases h1 : ProcessLoop sendOk s bytes n 0 with
  | none => trivial
  | some pr =>
    have hp1 := ProcessLoop_pres h1
    have hp1b : pr.2.1.binding_done = s.binding_done ∨
        pr.2.1.binding_done = 1 := Or.inl hp1.1
    have hp1s : pr.2.1.surface_state = s.surface_state ∨
        pr.2.1.surface_state = SurfaceState.ACKED_CONFIGURE ∨
        pr.2.1.surface_state = SurfaceState.SURFACE_ATTACHED :=
      hp1.2.imp id Or.inl
    dsimp only
    split
    · exact ⟨hp1b, hp1s⟩
    · cases h2 : surfaceCreationStep sendOk pr.2.1 with
      | none => trivial
      | some sr =>
        have hp2 := surfaceCreationStep_pres h2
        have hb2 : sr.2.1.binding_done = s.binding_done ∨
            sr.2.1.binding_done = 1 := bindingChain hp2.1 hp1b
        have hs2 : sr.2.1.surface_state = s.surface_state ∨
            sr.2.1.surface_state = SurfaceState.ACKED_CONFIGURE ∨
            sr.2.1.surface_state = SurfaceState.SURFACE_ATTACHED :=
          surfaceChain (Or.inl hp2.2) hp1s
        dsimp only
        split
        · exact ⟨hb2, hs2⟩
        · cases h3 : renderStep sendOk sr.2.1 with
          | none => trivial
          | some rr =>
            have hp3 := renderStep_pres h3
            have hb3 : rr.2.1.binding_done = s.binding_done ∨
                rr.2.1.binding_done = 1 :=
              bindingChain (Or.inl hp3.1) hb2
            have hs3 : rr.2.1.surface_state = s.surface_state ∨
                rr.2.1.surface_state = SurfaceState.ACKED_CONFIGURE ∨
                rr.2.1.surface_state = SurfaceState.SURFACE_ATTACHED :=
              surfaceChain (hp3.2.imp id (fun h => Or.inr h)) hs2
            dsimp only
            split <;> exact ⟨hb3, hs3⟩

theorem eventLoopIter_pres {sendOk : SendOracle} {s : ApplicationState}
    {bytes : List Nat} {n : Nat} {r : Nat × ApplicationState × List Output}
    (h : eventLoopIter sendOk s bytes n = some r) :
    (r.2.1.binding_done = s.binding_done ∨ r.2.1.binding_done = 1) ∧
      (r.2.1.surface_state = s.surface_state ∨
        r.2.1.surface_state = SurfaceState.ACKED_CONFIGURE ∨
        r.2.1.surface_state = SurfaceState.SURFACE_ATTACHED) := by
  have hp := eventLoopIter_presF sendOk s bytes n
  rw [h] at hp
  exact hp

theorem EventLoop_presF (sendOk : SendOracle) :
    ∀ (inputs : List RecvInput) (s : ApplicationState),
    (EventLoop sendOk s inputs).elim True
      (fun p => (p.2.binding_done = s.binding_done ∨ p.2.binding_done = 1) ∧
        (p.2.surface_state = s.surface_state ∨
          p.2.surface_state = SurfaceState.ACKED_CONFIGURE ∨
          p.2.surface_state = SurfaceState.SURFACE_ATTACHED)) := by
  intro inputs
  induction inputs with
  | nil => intro s; exact ⟨Or.inl rfl, Or.inl rfl⟩
  | cons i rest ih =>
    intro s
    cases i with
    | recvError => exact ⟨Or.inl rfl, Or.inl rfl⟩
    | chunk b n =>
      simp only [EventLoop]
      cases hiter : eventLoopIter sendOk s b n with
      | none => trivial
      | some r =>
        have hpi := eventLoopIter_pres hiter
        dsimp only
        split
        · exact hpi
        · exact optionElim_imp (ih r.2.1)
            (fun p hq => ⟨bindingChain hq.1 hpi.1, surfaceChain hq.2 hpi.2⟩)

theorem EventLoop_pres {sendOk : SendOracle} {s : ApplicationState}
    {inputs : List RecvInput} {p : Nat × ApplicationState}
    (h : EventLoop sendOk s inputs = some p) :
    (p.2.binding_done = s.binding_done ∨ p.2.binding_done = 1) ∧
      (p.2.surface_state = s.surface_state ∨
        p.2.surface_state = SurfaceState.ACKED_CONFIGURE ∨
        p.2.surface_state = SurfaceState.SURFACE_ATTACHED) := by
  have hp := EventLoop_presF sendOk inputs s
  rw [h] at hp
  exact hp

/-- C2 is refuted: `SURFACE_ATTACHED` is not terminal.  In a state with a
frame already attached, a shell-surface configure event is acked and moves
the surface state back to `ACKED_CONFIGURE`. -/
theorem C2_counterexample :
    attachedState.surface_state = SurfaceState.SURFACE_ATTACHED ∧
    (HandleWaylandEvent allOk attachedState ⟨8, 0, 4, some [9, 0, 0, 0]⟩).map
        (fun p => p.2.1.surface_state) =
      some SurfaceState.ACKED_CONFIGURE := by
  exact ⟨rfl, by decide⟩

/-- C2 (amended): the surface state never returns to `NONE`: every event
handled changes it at most to `ACKED_CONFIGURE`, rendering changes it at
most to `SURFACE_ATTACHED`, and once away from `NONE` it stays in
`{ACKED_CONFIGURE, SURFACE_ATTACHED}` across every loop iteration and whole
run; but `ATTACHED` is not terminal — a further shell-surface configure
event moves the state back to `ACKED_CONFIGURE`. -/
theorem C2_surface_monotone :
    (∀ (sendOk : SendOracle) (s : ApplicationState) (e : ParsedWaylandEvent)
        (r : Nat × ApplicationState × List Output),
      HandleWaylandEvent sendOk s e = some r →
      r.2.1.surface_state = s.surface_state ∨
        r.2.1.surface_state = SurfaceState.ACKED_CONFIGURE) ∧
    (∀ (sendOk : SendOracle) (s : ApplicationState)
        (r : Nat × ApplicationState × List Output),
      RenderFrame sendOk s = some r →
      r.2.1.surface_state = s.surface_state ∨
        r.2.1.surface_state = SurfaceState.SURFACE_ATTACHED) ∧
    (∀ (sendOk : SendOracle) (s : ApplicationState) (bytes : List Nat)
        (n : Nat) (r : Nat × ApplicationState × List Output),
      eventLoopIter sendOk s bytes n = some r →
      s.surface_state ≠ SurfaceState.NONE →
      r.2.1.surface_state ≠ SurfaceState.NONE) ∧
    (∀ (sendOk : SendOracle) (s : ApplicationState)
        (inputs : List RecvInput) (p : Nat × ApplicationState),
      EventLoop sendOk s inputs = some p →
      s.surface_state ≠ SurfaceState.NONE →
      p.2.surface_state ≠ SurfaceState.NONE) := by
  refine ⟨?_, ?_, ?_, ?_⟩
  · intro sendOk s e r h
    exact (HandleWaylandEvent_pres h).2
  · intro sendOk s r h
    exact (RenderFrame_pres h).2
  · intro sendOk s bytes n r h hne
    rcases (eventLoopIter_pres h).2 with h1 | h1 | h1
    · rw [h1]; exact hne
    · rw [h1]; decide
    · rw [h1]; decide
  · intro sendOk s inputs p h hne
    rcases (EventLoop_pres h).2 with h1 | h1 | h1
    · rw [h1]; exact hne
    · rw [h1]; decide
    · rw [h1]; decide

/-- C7: binding completion is monotone.  `BindingDone` returns 1 exactly
when the cached flag is set or all three required roles (shared-memory
factory, compositor, shell base) hold non-zero identifiers; returning 1
leaves the flag set; a set flag makes every later call return 1; and the
flag, once non-zero, stays non-zero across every handled event, every loop
iteration, and every whole run. -/
theorem C7_binding_monotone :
    (∀ s : ApplicationState, (BindingDone s).1 = 1 ↔
      (s.binding_done ≠ 0 ∨
        (s.shm_id ≠ 0 ∧ s.compositor_id ≠ 0 ∧ s.xdg_wm_base_id ≠ 0))) ∧
    (∀ s : ApplicationState, (BindingDone s).1 = 1 →
      (BindingDone s).2.binding_done ≠ 0) ∧
    (∀ s : ApplicationState, s.binding_done ≠ 0 → (BindingDone s).1 = 1) ∧
    (∀ (sendOk : SendOracle) (s : ApplicationState) (e : ParsedWaylandEvent)
        (r : Nat × ApplicationState × List Output),
      HandleWaylandEvent sendOk s e = some r →
      r.2.1.binding_done = s.binding_done) ∧
    (∀ (sendOk : SendOracle) (s : ApplicationState) (bytes : List Nat)
        (n : Nat) (r : Nat × ApplicationState × List Output),
      eventLoopIter sendOk s bytes n = some r →
      s.binding_done ≠ 0 → r.2.1.binding_done ≠ 0) ∧
    (∀ (sendOk : SendOracle) (s : ApplicationState)
        (inputs : List RecvInput) (p : Nat × ApplicationState),
      EventLoop sendOk s inputs = some p →
      s.binding_done ≠ 0 → p.2.binding_done ≠ 0) := by
  refine ⟨fun s => (BindingDone_props s).1, fun s => (BindingDone_props s).2.1,
    fun s => (BindingDone_props s).2.2.1, ?_, ?_, ?_⟩
  · intro sendOk s e r h
    exact (HandleWaylandEvent_pres h).1
  · intro sendOk s bytes n r h hne
    rcases (eventLoopIter_pres h).1 with h1 | h1
    · rw [h1]; exact hne
    · rw [h1]; exact Nat.one_ne_zero
  · intro sendOk s inputs p h hne
    rcases (EventLoop_pres h).1 with h1 | h1
    · rw [h1]; exact hne
    · rw [h1]; exact Nat.one_ne_zero

end Wayland
